import Mathlib

/-!
Shallow embedding of the cross-compilation target resolver and link CLI action
of the react-native-node-api repository (packages/ferric/src/cargo.ts and the
CLI program source), together with theorems checking the specification's
claims about them.

Filesystem and process state are modelled explicitly: an environment lookup
function, a path-existence predicate and a directory listing function stand in
for process.env, fs.existsSync and fs.readdirSync.  Node's path.join is
modelled as interposing "/" between segments (the segments used by this code
are plain relative names, so no normalisation is involved).
-/

namespace ReactNativeNodeApi

/-- Error taxonomy of the specification: configuration errors (missing or
ambiguous toolchain components, also raised by existence assertions) and
ambiguous build outputs. -/
inductive CargoError
| configurationError (message : String)
| ambiguousOutputError (message : String)
deriving DecidableEq, Repr

/-- Decidable equality for Except values, used to compare resolver results on
concrete inputs. -/
instance {ε α : Type} [DecidableEq ε] [DecidableEq α] : DecidableEq (Except ε α)
| .error e1, .error e2 =>
    if h : e1 = e2 then .isTrue (by rw [h])
    else .isFalse (by intro hc; injection hc; exact h ‹_›)
| .error _, .ok _ => .isFalse (by intro hc; exact Except.noConfusion hc)
| .ok _, .error _ => .isFalse (by intro hc; exact Except.noConfusion hc)
| .ok a1, .ok a2 =>
    if h : a1 = a2 then .isTrue (by rw [h])
    else .isFalse (by intro hc; injection hc; exact h ‹_›)

/-- The Android target names, the keys of ANDROID_ARCH_PR_TARGET in
cargo.ts. -/
inductive AndroidTargetName
| aarch64LinuxAndroid
| armv7LinuxAndroideabi
| i686LinuxAndroid
| x8664LinuxAndroid
deriving DecidableEq, Repr, Fintype

/-- The Apple target names, the keys of APPLE_XCFRAMEWORK_SLICES_PER_TARGET
in cargo.ts. -/
inductive AppleTargetName
| aarch64AppleDarwin
| x8664AppleDarwin
| aarch64AppleIos
| aarch64AppleIosSim
| x8664AppleIos
| aarch64AppleVisionos
| aarch64AppleVisionosSim
| aarch64AppleTvos
| aarch64AppleTvosSim
| x8664AppleTvos
deriving DecidableEq, Repr, Fintype

/-- The target triple string of an Android target. -/
def AndroidTargetName.triple : AndroidTargetName → String
| .aarch64LinuxAndroid => "aarch64-linux-android"
| .armv7LinuxAndroideabi => "armv7-linux-androideabi"
| .i686LinuxAndroid => "i686-linux-android"
| .x8664LinuxAndroid => "x86_64-linux-android"

/-- The target triple string of an Apple target. -/
def AppleTargetName.triple : AppleTargetName → String
| .aarch64AppleDarwin => "aarch64-apple-darwin"
| .x8664AppleDarwin => "x86_64-apple-darwin"
| .aarch64AppleIos => "aarch64-apple-ios"
| .aarch64AppleIosSim => "aarch64-apple-ios-sim"
| .x8664AppleIos => "x86_64-apple-ios"
| .aarch64AppleVisionos => "aarch64-apple-visionos"
| .aarch64AppleVisionosSim => "aarch64-apple-visionos-sim"
| .aarch64AppleTvos => "aarch64-apple-tvos"
| .aarch64AppleTvosSim => "aarch64-apple-tvos-sim"
| .x8664AppleTvos => "x86_64-apple-tvos"

/-- A supported target is either an Android target or an Apple target. -/
inductive TargetName
| androidTarget (name : AndroidTargetName)
| appleTarget (name : AppleTargetName)
deriving DecidableEq, Repr, Fintype

/-- The triple string of a target. -/
def TargetName.triple : TargetName → String
| .androidTarget name => name.triple
| .appleTarget name => name.triple

/-- Modelled from the spec: the targets module (not among the provided
sources) classifies targets by platform family; a target is an Android target
exactly when it comes from the Android side of the catalog. -/
def isAndroidTarget : TargetName → Bool
| .androidTarget _ => true
| .appleTarget _ => false

/-- Modelled from the spec: a target is an Apple target exactly when it comes
from the Apple side of the catalog. -/
def isAppleTarget : TargetName → Bool
| .androidTarget _ => false
| .appleTarget _ => true

/-- Modelled from the spec: the vision-OS family targets are third-tier
platforms for the Rust toolchain (the spec names the vision-OS family as the
minimum third-tier set). -/
def isThirdTierTarget : TargetName → Bool
| .appleTarget .aarch64AppleVisionos => true
| .appleTarget .aarch64AppleVisionosSim => true
| _ => false

/-- Build configuration: debug or release. -/
inductive Configuration
| debug
| release
deriving DecidableEq, Repr, Fintype

/-- The string form of a configuration, as used for the output subdirectory
and the release check. -/
def Configuration.string : Configuration → String
| .debug => "debug"
| .release => "release"

/-- Build options, from the BuildOptions type of cargo.ts: a target, a
configuration, and (needed for Android targets) an NDK version and an Android
API level. -/
structure BuildOptions where
  target : TargetName
  configuration : Configuration
  ndkVersion : Option String
  androidApiLevel : Nat
deriving DecidableEq, Repr

/-- Ambient system state read by the resolver: process.env, process.platform,
process.cwd(), fs.existsSync and fs.readdirSync. -/
structure SystemState where
  env : String → Option String
  platform : String
  cwd : String
  existsSync : String → Bool
  readdirSync : String → List String

/-- Model of node's path.join for the plain segments used in this code. -/
def pathJoin (segments : List String) : String :=
  String.intercalate "/" segments

/-- Per apple target mapping to a list of xcframework slices in order of
priority, from cargo.ts. -/
def APPLE_XCFRAMEWORK_SLICES_PER_TARGET : AppleTargetName → List String
| .aarch64AppleDarwin => ["macos-arm64_x86_64", "macos-arm64"]
| .x8664AppleDarwin => ["macos-arm64_x86_64", "macos-x86_64"]
| .aarch64AppleIos => ["ios-arm64"]
| .aarch64AppleIosSim => ["ios-arm64_x86_64-simulator", "ios-arm64-simulator"]
| .x8664AppleIos => ["ios-arm64_x86_64-simulator", "ios-x86_64-simulator"]
| .aarch64AppleVisionos => ["xros-arm64"]
| .aarch64AppleVisionosSim =>
    ["xros-arm64_x86_64-simulator", "xros-arm64-simulator"]
| .aarch64AppleTvos => ["tvos-arm64"]
| .aarch64AppleTvosSim =>
    ["tvos-arm64_x86_64-simulator", "tvos-arm64-simulator"]
| .x8664AppleTvos => ["tvos-arm64_x86_64-simulator", "tvos-x86_64-simulator"]

/-- The slices the source comments mark as Universal (they cover more than
one architecture). -/
def isUniversalSlice (slice : String) : Bool :=
  slice = "macos-arm64_x86_64" ∨ slice = "ios-arm64_x86_64-simulator" ∨
    slice = "xros-arm64_x86_64-simulator" ∨ slice = "tvos-arm64_x86_64-simulator"

/-- ANDROID_ARCH_PR_TARGET from cargo.ts: the ABI directory name per Android
target. -/
def ANDROID_ARCH_PR_TARGET : AndroidTargetName → String
| .aarch64LinuxAndroid => "arm64-v8a"
| .armv7LinuxAndroideabi => "armeabi-v7a"
| .i686LinuxAndroid => "x86"
| .x8664LinuxAndroid => "x86_64"

/-- The weak-node-api package root; the actual value is resolved from the
package's installation directory, which the embedding represents by a fixed
symbolic path (no claim depends on its value). -/
def weakNodeApiPackagePath : String := "weak-node-api"

/-- The build output path of the weak-node-api package. -/
def outputPath : String := pathJoin [weakNodeApiPackagePath, "build", "Release"]

/-- The Apple prebuild root, weak-node-api.xcframework. -/
def applePrebuildPath : String := pathJoin [outputPath, "weak-node-api.xcframework"]

/-- The Android prebuild root, weak-node-api.android.node. -/
def androidPrebuildPath : String :=
  pathJoin [outputPath, "weak-node-api.android.node"]

/-- joinPathAndAssertExistence from cargo.ts: join the segments and assert
that the joined path exists. -/
def joinPathAndAssertExistence (existsSync : String → Bool)
    (pathSegments : List String) : Except CargoError String :=
  if existsSync (pathJoin pathSegments) then .ok (pathJoin pathSegments)
  else .error (.configurationError ("Expected " ++ pathJoin pathSegments ++ " to exist"))

/-- getLLVMToolchainBinPath from cargo.ts: locate the single LLVM prebuilt
toolchain directory under the NDK; fail if zero or more than one candidate
exists. -/
def getLLVMToolchainBinPath (readdirSync : String → List String)
    (ndkPath : String) : Except CargoError String :=
  match readdirSync (pathJoin [ndkPath, "toolchains", "llvm", "prebuilt"]) with
  | [] => .error (.configurationError "Expected LLVM toolchain to be installed")
  | [candidate] =>
      .ok (pathJoin [pathJoin [ndkPath, "toolchains", "llvm", "prebuilt"], candidate, "bin"])
  | _ :: _ :: _ =>
      .error (.configurationError "Expected a single LLVM toolchain to be installed")

/-- Model of JavaScript's split for a single-character separator, over the
character list: the maximal separator-free runs, with empty runs kept. -/
def splitChar (sep : Char) : List Char → List (List Char)
| [] => [[]]
| c :: cs =>
  if c = sep then [] :: splitChar sep cs
  else
    match splitChar sep cs with
    | [] => [[c]]
    | w :: ws => (c :: w) :: ws

/-- Model of JavaScript's String.split for the single-character separators
used by this code. -/
def stringSplit (s : String) (sep : Char) : List String :=
  (splitChar sep s.data).map (fun w => ⟨w⟩)

/-- getTargetAndroidArch from cargo.ts: the first dash-separated component of
the triple, with armv7 translated to the armv7a compiler prefix. -/
def getTargetAndroidArch (target : AndroidTargetName) : String :=
  if (stringSplit target.triple '-').headD "" = "armv7" then "armv7a"
  else (stringSplit target.triple '-').headD ""

/-- getTargetAndroidPlatform from cargo.ts. -/
def getTargetAndroidPlatform (target : AndroidTargetName) : String :=
  if getTargetAndroidArch target = "armv7a" then "androideabi24" else "android24"

/-- getWeakNodeApiFrameworkPath from cargo.ts: the first slice of the
target's priority list that exists on disk; an error when none does. -/
def getWeakNodeApiFrameworkPath (existsSync : String → Bool)
    (target : AppleTargetName) : Except CargoError String :=
  match (APPLE_XCFRAMEWORK_SLICES_PER_TARGET target).find?
      (fun slice => existsSync (pathJoin [applePrebuildPath, slice])) with
  | some result => joinPathAndAssertExistence existsSync [applePrebuildPath, result]
  | none =>
      .error (.configurationError
        ("No matching slice found in weak-node-api.xcframework for target "
          ++ target.triple))

/-- getWeakNodeApiAndroidLibraryPath from cargo.ts. -/
def getWeakNodeApiAndroidLibraryPath (existsSync : String → Bool)
    (target : AndroidTargetName) : Except CargoError String :=
  joinPathAndAssertExistence existsSync
    [androidPrebuildPath, ANDROID_ARCH_PR_TARGET target]

/-- The field separator used by CARGO_ENCODED_RUSTFLAGS,
String.fromCharCode of 0x1f, the unit separator. -/
def unitSeparator : String := String.singleton (Char.ofNat 0x1f)

/-- getTargetEnvironmentVariables from cargo.ts, as a function of the ambient
system state and the build options.  The returned association list keeps the
key order of the source's object literals; assertion failures become errors.
The PATH entry mirrors the source's template literal, so an absent ambient
PATH is interpolated as the string undefined. -/
def getTargetEnvironmentVariables (state : SystemState) (options : BuildOptions) :
    Except CargoError (List (String × String)) :=
  match options.target with
  | .androidTarget target =>
    match options.ndkVersion with
    | none =>
        .error (.configurationError "Expected ndkVersion to be set for Android targets")
    | some ndkVersion =>
      match state.env "ANDROID_HOME" with
      | none => .error (.configurationError "Missing ANDROID_HOME environment variable")
      | some androidHome =>
        if androidHome.isEmpty || !state.existsSync androidHome then
          .error (.configurationError "Missing ANDROID_HOME environment variable")
        else
          if !state.existsSync (pathJoin [androidHome, "ndk", ndkVersion]) then
            .error (.configurationError
              ("Expected NDK at " ++ pathJoin [androidHome, "ndk", ndkVersion]))
          else
            match getLLVMToolchainBinPath state.readdirSync
                (pathJoin [androidHome, "ndk", ndkVersion]) with
            | .error e => .error e
            | .ok toolchainBinPath =>
              match getWeakNodeApiAndroidLibraryPath state.existsSync target with
              | .error e => .error e
              | .ok weakNodeApiPath =>
                match joinPathAndAssertExistence state.existsSync [toolchainBinPath,
                    "aarch64-linux-android" ++ toString options.androidApiLevel ++ "-clang"
                      ++ (if state.platform = "win32" then ".cmd" else "")] with
                | .error e => .error e
                | .ok aarch64Linker =>
                  match joinPathAndAssertExistence state.existsSync [toolchainBinPath,
                      "armv7a-linux-androideabi" ++ toString options.androidApiLevel ++ "-clang"
                        ++ (if state.platform = "win32" then ".cmd" else "")] with
                  | .error e => .error e
                  | .ok armv7Linker =>
                    match joinPathAndAssertExistence state.existsSync [toolchainBinPath,
                        "x86_64-linux-android" ++ toString options.androidApiLevel ++ "-clang"
                          ++ (if state.platform = "win32" then ".cmd" else "")] with
                    | .error e => .error e
                    | .ok x8664Linker =>
                      match joinPathAndAssertExistence state.existsSync [toolchainBinPath,
                          "i686-linux-android" ++ toString options.androidApiLevel ++ "-clang"
                            ++ (if state.platform = "win32" then ".cmd" else "")] with
                      | .error e => .error e
                      | .ok i686Linker =>
                        match joinPathAndAssertExistence state.existsSync [toolchainBinPath,
                            getTargetAndroidArch target ++ "-linux-"
                              ++ getTargetAndroidPlatform target ++ "-clang"
                              ++ (if state.platform = "win32" then ".cmd" else "")] with
                        | .error e => .error e
                        | .ok targetCC =>
                          match joinPathAndAssertExistence state.existsSync [toolchainBinPath,
                              getTargetAndroidArch target ++ "-linux-"
                                ++ getTargetAndroidPlatform target ++ "-clang++"
                                ++ (if state.platform = "win32" then ".cmd" else "")] with
                          | .error e => .error e
                          | .ok targetCXX =>
                            match joinPathAndAssertExistence state.existsSync [toolchainBinPath,
                                "llvm-ar" ++ (if state.platform = "win32" then ".exe" else "")] with
                            | .error e => .error e
                            | .ok targetAR =>
                              match joinPathAndAssertExistence state.existsSync [toolchainBinPath,
                                  "llvm-ranlib"
                                    ++ (if state.platform = "win32" then ".exe" else "")] with
                              | .error e => .error e
                              | .ok targetRANLIB =>
                                .ok [
                                  ("CARGO_ENCODED_RUSTFLAGS",
                                    String.intercalate unitSeparator
                                      ["-L", weakNodeApiPath, "-l", "weak-node-api"]),
                                  ("CARGO_TARGET_AARCH64_LINUX_ANDROID_LINKER", aarch64Linker),
                                  ("CARGO_TARGET_ARMV7_LINUX_ANDROIDEABI_LINKER", armv7Linker),
                                  ("CARGO_TARGET_X86_64_LINUX_ANDROID_LINKER", x8664Linker),
                                  ("CARGO_TARGET_I686_LINUX_ANDROID_LINKER", i686Linker),
                                  ("TARGET_CC", targetCC),
                                  ("TARGET_CXX", targetCXX),
                                  ("TARGET_AR", targetAR),
                                  ("TARGET_RANLIB", targetRANLIB),
                                  ("ANDROID_NDK", pathJoin [androidHome, "ndk", ndkVersion]),
                                  ("PATH", toolchainBinPath ++ ":"
                                    ++ (state.env "PATH").getD "undefined")]
  | .appleTarget target =>
    match getWeakNodeApiFrameworkPath state.existsSync target with
    | .error e => .error e
    | .ok weakNodeApiFrameworkPath =>
      if !state.existsSync weakNodeApiFrameworkPath then
        .error (.configurationError
          ("Expected weak-node-api framework at " ++ weakNodeApiFrameworkPath))
      else
        .ok [("CARGO_ENCODED_RUSTFLAGS",
          String.intercalate unitSeparator
            ["-L", "framework=" ++ weakNodeApiFrameworkPath,
              "-l", "framework=weak-node-api"])]

/-- Model of JavaScript's toLowerCase for the ASCII strings used by this
code. -/
def toLowerCase (s : String) : String := ⟨s.data.map Char.toLower⟩

/-- The argument list of the external cargo invocation built by build() in
cargo.ts: start from build, --target and the triple, append --release for a
release configuration, and for third-tier targets splice +nightly in front
and append the build-std flags. -/
def buildArgs (target : TargetName) (configuration : Configuration) : List String :=
  let args := ["build", "--target", target.triple]
  let args :=
    if toLowerCase configuration.string = "release" then args ++ ["--release"] else args
  if isThirdTierTarget target then
    "+nightly" :: (args ++ ["-Z", "build-std=std,panic_abort"])
  else args

/-- Model of JavaScript's endsWith for the file names handled here, phrased
over the character lists so that proofs can evaluate it. -/
def endsWith (s pat : String) : Bool :=
  decide (s.data.reverse.take pat.data.length = pat.data.reverse)

/-- The target output directory of build() in cargo.ts: cwd/target/triple
followed by the configuration subdirectory. -/
def targetOutputPath (state : SystemState) (target : TargetName)
    (configuration : Configuration) : String :=
  pathJoin [state.cwd, "target", target.triple, configuration.string]

/-- The dynamic library files of the target output directory: the directory
listing filtered to names ending in .so or .dylib. -/
def dynamicLibraryFiles (state : SystemState) (target : TargetName)
    (configuration : Configuration) : List String :=
  (state.readdirSync (targetOutputPath state target configuration)).filter
    (fun file => endsWith file ".so" || endsWith file ".dylib")

/-- The part of build() in cargo.ts that runs after a successful cargo
invocation: locate the target output directory, list the dynamic library
files in it, require exactly one, and return its path.  The source expresses
the exactly-one requirement as an assertion on the filtered listing's length
followed by indexing its first element. -/
def buildFindOutput (state : SystemState) (target : TargetName)
    (configuration : Configuration) : Except CargoError String :=
  match joinPathAndAssertExistence state.existsSync
      [state.cwd, "target", target.triple, configuration.string] with
  | .error e => .error e
  | .ok _ =>
    match dynamicLibraryFiles state target configuration with
    | [dynamicLibraryFile] =>
        joinPathAndAssertExistence state.existsSync
          [targetOutputPath state target configuration, dynamicLibraryFile]
    | _ =>
        .error (.ambiguousOutputError
          ("Expected a single shared object file in "
            ++ targetOutputPath state target configuration))

/-- The platform names understood by the link command. -/
inductive PlatformName
| android
| apple
deriving DecidableEq, Repr, Fintype

/-- A per-module link result: a success record with the original path, an
optional output path and a skipped flag, or a failure record with the
original path and the captured failure message. -/
inductive LinkResult
| linked (originalPath : String) (linkOutputPath : Option String) (skipped : Bool)
| failure (originalPath : String) (message : String)
deriving DecidableEq, Repr

/-- Whether a link result is a failure record. -/
def LinkResult.isFailure : LinkResult → Bool
| .linked _ _ _ => false
| .failure _ _ => true

/-- The observable outcome of one run of the link action: the process exit
code, the failures reported to the console in order, and the prune
invocations performed, each carrying the platform and the link results it was
given. -/
structure LinkActionOutcome where
  exitCode : Nat
  reportedFailures : List (PlatformName × LinkResult)
  pruneCalls : List (PlatformName × List LinkResult)
deriving DecidableEq, Repr

/-- The platform list assembled by the link action: android is pushed first
when its flag is given, then apple. -/
def selectedPlatforms (android apple : Bool) : List PlatformName :=
  (if android then [PlatformName.android] else [])
    ++ (if apple then [PlatformName.apple] else [])

/-- Default of the link command's prune option in the CLI program source. -/
def pruneDefault : Bool := true

/-- The effective value of the prune option: the explicit value when the
invocation overrides it, the declared default otherwise. -/
def pruneOptionValue (override : Option Bool) : Bool :=
  override.getD pruneDefault

/-- The link action of the CLI program, as a function of the platform flags,
the prune setting and the per-platform link results produced by the linking
engine (an input of the model, since the engine itself is outside the
examined sources).  With no platform selected it reports exit code 1 and does
nothing else; otherwise it processes every selected platform in order,
reports each failure record individually, sets the exit code to 1 when a
failure occurred, and when pruning is enabled calls the pruner for the
platform with that platform's results.  linkActionStep is the body of the
loop over the selected platforms. -/
def linkActionStep (prune : Bool) (results : PlatformName → List LinkResult)
    (acc : LinkActionOutcome) (platform : PlatformName) : LinkActionOutcome :=
  { exitCode :=
      if ((results platform).filter (fun r => r.isFailure)).isEmpty then acc.exitCode
      else 1,
    reportedFailures := acc.reportedFailures
      ++ ((results platform).filter (fun r => r.isFailure)).map
          (fun f => (platform, f)),
    pruneCalls := acc.pruneCalls
      ++ (if prune then [(platform, results platform)] else []) }

def linkAction (android apple prune : Bool)
    (results : PlatformName → List LinkResult) : LinkActionOutcome :=
  if (selectedPlatforms android apple).isEmpty then
    { exitCode := 1, reportedFailures := [], pruneCalls := [] }
  else
    (selectedPlatforms android apple).foldl (linkActionStep prune results)
      { exitCode := 0, reportedFailures := [], pruneCalls := [] }

/-! Helper lemmas shared by several of the claim theorems. -/

/-- A successful joinPathAndAssertExistence returns the joined path, which the
existence predicate accepts. -/
theorem joinPathAndAssertExistence_ok {existsSync : String → Bool}
    {pathSegments : List String} {p : String}
    (h : joinPathAndAssertExistence existsSync pathSegments = .ok p) :
    p = pathJoin pathSegments ∧ existsSync (pathJoin pathSegments) = true := by
  unfold joinPathAndAssertExistence at h
  split at h
  · injection h with h
    exact ⟨h.symm, by assumption⟩
  · simp at h

/-- Inversion of the Android branch of getTargetEnvironmentVariables: a
successful run pins down the full returned association list in terms of the
toolchain bin path, the weak-node-api library path and the ambient state. -/
theorem getTargetEnvironmentVariables_androidTarget_ok
    {state : SystemState} {target : AndroidTargetName} {configuration : Configuration}
    {ndkVersionOpt : Option String} {androidApiLevel : Nat}
    {env : List (String × String)}
    (h : getTargetEnvironmentVariables state
      ⟨.androidTarget target, configuration, ndkVersionOpt, androidApiLevel⟩ = .ok env) :
    ∃ ndkVersion androidHome toolchainBinPath weakNodeApiPath,
      ndkVersionOpt = some ndkVersion ∧
      state.env "ANDROID_HOME" = some androidHome ∧
      getLLVMToolchainBinPath state.readdirSync
        (pathJoin [androidHome, "ndk", ndkVersion]) = .ok toolchainBinPath ∧
      getWeakNodeApiAndroidLibraryPath state.existsSync target = .ok weakNodeApiPath ∧
      env = [
        ("CARGO_ENCODED_RUSTFLAGS", String.intercalate unitSeparator
          ["-L", weakNodeApiPath, "-l", "weak-node-api"]),
        ("CARGO_TARGET_AARCH64_LINUX_ANDROID_LINKER", pathJoin [toolchainBinPath,
          "aarch64-linux-android" ++ toString androidApiLevel ++ "-clang"
            ++ (if state.platform = "win32" then ".cmd" else "")]),
        ("CARGO_TARGET_ARMV7_LINUX_ANDROIDEABI_LINKER", pathJoin [toolchainBinPath,
          "armv7a-linux-androideabi" ++ toString androidApiLevel ++ "-clang"
            ++ (if state.platform = "win32" then ".cmd" else "")]),
        ("CARGO_TARGET_X86_64_LINUX_ANDROID_LINKER", pathJoin [toolchainBinPath,
          "x86_64-linux-android" ++ toString androidApiLevel ++ "-clang"
            ++ (if state.platform = "win32" then ".cmd" else "")]),
        ("CARGO_TARGET_I686_LINUX_ANDROID_LINKER", pathJoin [toolchainBinPath,
          "i686-linux-android" ++ toString androidApiLevel ++ "-clang"
            ++ (if state.platform = "win32" then ".cmd" else "")]),
        ("TARGET_CC", pathJoin [toolchainBinPath,
          getTargetAndroidArch target ++ "-linux-" ++ getTargetAndroidPlatform target
            ++ "-clang" ++ (if state.platform = "win32" then ".cmd" else "")]),
        ("TARGET_CXX", pathJoin [toolchainBinPath,
          getTargetAndroidArch target ++ "-linux-" ++ getTargetAndroidPlatform target
            ++ "-clang++" ++ (if state.platform = "win32" then ".cmd" else "")]),
        ("TARGET_AR", pathJoin [toolchainBinPath,
          "llvm-ar" ++ (if state.platform = "win32" then ".exe" else "")]),
        ("TARGET_RANLIB", pathJoin [toolchainBinPath,
          "llvm-ranlib" ++ (if state.platform = "win32" then ".exe" else "")]),
        ("ANDROID_NDK", pathJoin [androidHome, "ndk", ndkVersion]),
        ("PATH", toolchainBinPath ++ ":" ++ (state.env "PATH").getD "undefined")] := by
  simp only [getTargetEnvironmentVariables] at h
  repeat' split at h
  all_goals try exact Except.noConfusion h
  rename_i x11 ndkVersion x10 androidHome hHome hOk1 hOk2 x9 toolchainBinPath hTool
    x8 weakNodeApiPath hWeak x7 aarch64Linker hA x6 armv7Linker hB x5 x8664Linker hC
    x4 i686Linker hD x3 targetCC hCC x2 targetCXX hCXX x1 targetAR hAR
    x0 targetRANLIB hRANLIB
  injection h with h
  subst h
  obtain ⟨rfl, -⟩ := joinPathAndAssertExistence_ok hA
  obtain ⟨rfl, -⟩ := joinPathAndAssertExistence_ok hB
  obtain ⟨rfl, -⟩ := joinPathAndAssertExistence_ok hC
  obtain ⟨rfl, -⟩ := joinPathAndAssertExistence_ok hD
  obtain ⟨rfl, -⟩ := joinPathAndAssertExistence_ok hCC
  obtain ⟨rfl, -⟩ := joinPathAndAssertExistence_ok hCXX
  obtain ⟨rfl, -⟩ := joinPathAndAssertExistence_ok hAR
  obtain ⟨rfl, -⟩ := joinPathAndAssertExistence_ok hRANLIB
  exact ⟨ndkVersion, androidHome, toolchainBinPath, weakNodeApiPath,
    rfl, hHome, hTool, hWeak, rfl⟩

/-- Inversion of the Apple branch of getTargetEnvironmentVariables: a
successful run returns the single CARGO_ENCODED_RUSTFLAGS entry built from
the resolved framework slice path. -/
theorem getTargetEnvironmentVariables_appleTarget_ok
    {state : SystemState} {target : AppleTargetName} {configuration : Configuration}
    {ndkVersionOpt : Option String} {androidApiLevel : Nat}
    {env : List (String × String)}
    (h : getTargetEnvironmentVariables state
      ⟨.appleTarget target, configuration, ndkVersionOpt, androidApiLevel⟩ = .ok env) :
    ∃ weakNodeApiFrameworkPath,
      getWeakNodeApiFrameworkPath state.existsSync target = .ok weakNodeApiFrameworkPath ∧
      state.existsSync weakNodeApiFrameworkPath = true ∧
      env = [("CARGO_ENCODED_RUSTFLAGS", String.intercalate unitSeparator
        ["-L", "framework=" ++ weakNodeApiFrameworkPath,
          "-l", "framework=weak-node-api"])] := by
  simp only [getTargetEnvironmentVariables] at h
  repeat' split at h
  all_goals try exact Except.noConfusion h
  rename_i x1 weakNodeApiFrameworkPath hWeak hEx
  injection h with h
  subst h
  exact ⟨weakNodeApiFrameworkPath, hWeak, by simpa using hEx, rfl⟩

/-- find? returns the element at the first index whose predicate holds. -/
theorem find?_at_first_true {p : String → Bool} :
    ∀ (l : List String) (i : Nat) (hi : i < l.length),
      (∀ j (hj : j < l.length), j < i → p (l.get ⟨j, hj⟩) = false) →
      p (l.get ⟨i, hi⟩) = true →
      l.find? p = some (l.get ⟨i, hi⟩)
  | [], i, hi, _, _ => absurd hi (by simp)
  | a :: as, 0, _, _, hp => by
      have hp' : p a = true := hp
      simp [List.find?, hp']
  | a :: as, (i+1), hi, hbefore, hp => by
      have ha : p a = false := hbefore 0 (by simp) (Nat.succ_pos i)
      have htail := find?_at_first_true as i (by simpa using hi)
        (fun j hj hji => hbefore (j + 1) (by simpa using hj) (by omega)) hp
      simpa [List.find?, ha] using htail

/-- Sample ambient state on which every path exists, the NDK ships a single
LLVM toolchain, and ANDROID_HOME and PATH are set. -/
def sampleStateA : SystemState :=
  { env := fun name => if name = "ANDROID_HOME" then some "/sdk"
      else if name = "PATH" then some "/usr/bin" else none,
    platform := "linux", cwd := "/work",
    existsSync := fun _ => true,
    readdirSync := fun _ => ["llvm-toolchain"] }

/-- Same ambient state except for a different ambient PATH value. -/
def sampleStateB : SystemState :=
  { sampleStateA with
    env := fun name => if name = "ANDROID_HOME" then some "/sdk"
      else if name = "PATH" then some "/opt/bin" else none }

/-- Same ambient state except for a different working directory and an extra
unrelated environment variable. -/
def sampleStateC : SystemState :=
  { sampleStateA with
    cwd := "/elsewhere",
    env := fun name => if name = "HOME" then some "/root" else sampleStateA.env name }

/-- Sample Android build options. -/
def sampleOptions : BuildOptions :=
  ⟨.androidTarget .aarch64LinuxAndroid, .release, some "27.1.12297006", 24⟩

/-- Sample Apple build options. -/
def sampleAppleOptions : BuildOptions :=
  ⟨.appleTarget .aarch64AppleDarwin, .debug, none, 0⟩

/-- Sample filesystem on which only the single-architecture macOS arm64 slice
of the xcframework exists. -/
def sampleSliceFs : String → Bool :=
  fun p => p == pathJoin [applePrebuildPath, "macos-arm64"]

/-! Claim theorems. -/

/-- C4: for every target the external build command's argument list is
exactly build, --target, the triple, with --release appended exactly when the
configuration is release, and for third-tier targets +nightly prepended
before every other argument and the build-std flags appended at the end. -/
theorem c4_build_invocation_argument_list
    (target : TargetName) (configuration : Configuration) :
    buildArgs target configuration =
      (if isThirdTierTarget target then ["+nightly"] else [])
        ++ ["build", "--target", target.triple]
        ++ (if configuration = .release then ["--release"] else [])
        ++ (if isThirdTierTarget target then ["-Z", "build-std=std,panic_abort"] else []) := by
  rcases target with a | a <;> cases a <;> cases configuration <;> decide

/-- C5: getTargetAndroidArch maps the 32-bit ARM target to the armv7a
compiler prefix although its triple begins with armv7, and for every other
Android target it returns the first dash-separated component of the triple
unchanged; getTargetAndroidPlatform returns androideabi24 for that one
architecture and android24 for all others. -/
theorem c5_android_arch_and_platform_translation :
    (getTargetAndroidArch .armv7LinuxAndroideabi = "armv7a" ∧
      AndroidTargetName.armv7LinuxAndroideabi.triple.data.take 5 = "armv7".data ∧
      getTargetAndroidPlatform .armv7LinuxAndroideabi = "androideabi24") ∧
    ∀ t : AndroidTargetName, t ≠ .armv7LinuxAndroideabi →
      getTargetAndroidArch t = (stringSplit t.triple '-').headD "" ∧
        getTargetAndroidPlatform t = "android24" := by
  refine ⟨⟨by decide, by decide, by decide⟩, ?_⟩
  intro t ht
  cases t
  · exact ⟨by decide, by decide⟩
  · exact absurd rfl ht
  · exact ⟨by decide, by decide⟩
  · exact ⟨by decide, by decide⟩

/-- Witness for C5 at the concrete target aarch64-linux-android. -/
theorem c5_witness :
    getTargetAndroidArch .aarch64LinuxAndroid =
        ((stringSplit AndroidTargetName.aarch64LinuxAndroid.triple '-').headD "") ∧
      getTargetAndroidPlatform .aarch64LinuxAndroid = "android24" :=
  c5_android_arch_and_platform_translation.2 .aarch64LinuxAndroid (by decide)

/-- C10: for every Apple target a successful resolution returns a mapping
whose only key is CARGO_ENCODED_RUSTFLAGS; no linker, compiler, archiver, NDK
or PATH variable is set, so every other lookup misses. -/
theorem c10_apple_env_single_key
    (state : SystemState) (target : AppleTargetName) (configuration : Configuration)
    (ndkVersionOpt : Option String) (androidApiLevel : Nat)
    (env : List (String × String))
    (h : getTargetEnvironmentVariables state
      ⟨.appleTarget target, configuration, ndkVersionOpt, androidApiLevel⟩ = .ok env) :
    env.map Prod.fst = ["CARGO_ENCODED_RUSTFLAGS"] ∧
    ∀ key, key ≠ "CARGO_ENCODED_RUSTFLAGS" → env.lookup key = none := by
  obtain ⟨p, -, -, rfl⟩ := getTargetEnvironmentVariables_appleTarget_ok h
  refine ⟨rfl, ?_⟩
  intro key hk
  have hbeq : (key == "CARGO_ENCODED_RUSTFLAGS") = false := by
    cases hb : key == "CARGO_ENCODED_RUSTFLAGS"
    · rfl
    · exact absurd (eq_of_beq hb) hk
  simp [List.lookup, hbeq]

/-- Witness for C10 at a concrete state where every path exists. -/
theorem c10_witness :
    ∃ env, getTargetEnvironmentVariables sampleStateA sampleAppleOptions = .ok env ∧
      env.map Prod.fst = ["CARGO_ENCODED_RUSTFLAGS"] ∧
      env.lookup "PATH" = none :=
  ⟨_, rfl,
    (c10_apple_env_single_key sampleStateA .aarch64AppleDarwin .debug none 0 _ rfl).1,
    (c10_apple_env_single_key sampleStateA .aarch64AppleDarwin .debug none 0 _ rfl).2
      "PATH" (by decide)⟩

/-- C1: for every Android target and every configuration accepted by the
resolver, the returned mapping contains all four Cargo linker-selection
variables, the TARGET_CC/TARGET_CXX/TARGET_AR/TARGET_RANLIB entries for the
requested target, and a PATH entry prepending the toolchain's bin directory
to the ambient PATH. -/
theorem c1_android_env_all_linkers_and_path
    (state : SystemState) (target : AndroidTargetName) (configuration : Configuration)
    (ndkVersionOpt : Option String) (androidApiLevel : Nat)
    (env : List (String × String)) (ambientPath : String)
    (hAmbient : state.env "PATH" = some ambientPath)
    (h : getTargetEnvironmentVariables state
      ⟨.androidTarget target, configuration, ndkVersionOpt, androidApiLevel⟩ = .ok env) :
    ∃ toolchainBinPath,
      env.lookup "CARGO_TARGET_AARCH64_LINUX_ANDROID_LINKER" =
        some (pathJoin [toolchainBinPath, "aarch64-linux-android"
          ++ toString androidApiLevel ++ "-clang"
          ++ (if state.platform = "win32" then ".cmd" else "")]) ∧
      env.lookup "CARGO_TARGET_ARMV7_LINUX_ANDROIDEABI_LINKER" =
        some (pathJoin [toolchainBinPath, "armv7a-linux-androideabi"
          ++ toString androidApiLevel ++ "-clang"
          ++ (if state.platform = "win32" then ".cmd" else "")]) ∧
      env.lookup "CARGO_TARGET_X86_64_LINUX_ANDROID_LINKER" =
        some (pathJoin [toolchainBinPath, "x86_64-linux-android"
          ++ toString androidApiLevel ++ "-clang"
          ++ (if state.platform = "win32" then ".cmd" else "")]) ∧
      env.lookup "CARGO_TARGET_I686_LINUX_ANDROID_LINKER" =
        some (pathJoin [toolchainBinPath, "i686-linux-android"
          ++ toString androidApiLevel ++ "-clang"
          ++ (if state.platform = "win32" then ".cmd" else "")]) ∧
      env.lookup "TARGET_CC" =
        some (pathJoin [toolchainBinPath, getTargetAndroidArch target ++ "-linux-"
          ++ getTargetAndroidPlatform target ++ "-clang"
          ++ (if state.platform = "win32" then ".cmd" else "")]) ∧
      env.lookup "TARGET_CXX" =
        some (pathJoin [toolchainBinPath, getTargetAndroidArch target ++ "-linux-"
          ++ getTargetAndroidPlatform target ++ "-clang++"
          ++ (if state.platform = "win32" then ".cmd" else "")]) ∧
      env.lookup "TARGET_AR" =
        some (pathJoin [toolchainBinPath,
          "llvm-ar" ++ (if state.platform = "win32" then ".exe" else "")]) ∧
      env.lookup "TARGET_RANLIB" =
        some (pathJoin [toolchainBinPath,
          "llvm-ranlib" ++ (if state.platform = "win32" then ".exe" else "")]) ∧
      env.lookup "PATH" = some (toolchainBinPath ++ ":" ++ ambientPath) := by
  obtain ⟨ndkVersion, androidHome, toolchainBinPath, weakNodeApiPath, -, -, -, -, rfl⟩ :=
    getTargetEnvironmentVariables_androidTarget_ok h
  refine ⟨toolchainBinPath, rfl, rfl, rfl, rfl, rfl, rfl, rfl, rfl, ?_⟩
  rw [hAmbient]
  rfl

/-- Witness for C1 on a concrete state where every path exists. -/
theorem c1_witness :
    ∃ env, getTargetEnvironmentVariables sampleStateA sampleOptions = .ok env ∧
      ∃ toolchainBinPath,
        env.lookup "CARGO_TARGET_AARCH64_LINUX_ANDROID_LINKER" =
          some (pathJoin [toolchainBinPath, "aarch64-linux-android"
            ++ toString (24 : Nat) ++ "-clang"
            ++ (if sampleStateA.platform = "win32" then ".cmd" else "")]) ∧
        env.lookup "CARGO_TARGET_ARMV7_LINUX_ANDROIDEABI_LINKER" =
          some (pathJoin [toolchainBinPath, "armv7a-linux-androideabi"
            ++ toString (24 : Nat) ++ "-clang"
            ++ (if sampleStateA.platform = "win32" then ".cmd" else "")]) ∧
        env.lookup "CARGO_TARGET_X86_64_LINUX_ANDROID_LINKER" =
          some (pathJoin [toolchainBinPath, "x86_64-linux-android"
            ++ toString (24 : Nat) ++ "-clang"
            ++ (if sampleStateA.platform = "win32" then ".cmd" else "")]) ∧
        env.lookup "CARGO_TARGET_I686_LINUX_ANDROID_LINKER" =
          some (pathJoin [toolchainBinPath, "i686-linux-android"
            ++ toString (24 : Nat) ++ "-clang"
            ++ (if sampleStateA.platform = "win32" then ".cmd" else "")]) ∧
        env.lookup "TARGET_CC" =
          some (pathJoin [toolchainBinPath,
            getTargetAndroidArch .aarch64LinuxAndroid ++ "-linux-"
            ++ getTargetAndroidPlatform .aarch64LinuxAndroid ++ "-clang"
            ++ (if sampleStateA.platform = "win32" then ".cmd" else "")]) ∧
        env.lookup "TARGET_CXX" =
          some (pathJoin [toolchainBinPath,
            getTargetAndroidArch .aarch64LinuxAndroid ++ "-linux-"
            ++ getTargetAndroidPlatform .aarch64LinuxAndroid ++ "-clang++"
            ++ (if sampleStateA.platform = "win32" then ".cmd" else "")]) ∧
        env.lookup "TARGET_AR" =
          some (pathJoin [toolchainBinPath,
            "llvm-ar" ++ (if sampleStateA.platform = "win32" then ".exe" else "")]) ∧
        env.lookup "TARGET_RANLIB" =
          some (pathJoin [toolchainBinPath,
            "llvm-ranlib" ++ (if sampleStateA.platform = "win32" then ".exe" else "")]) ∧
        env.lookup "PATH" = some (toolchainBinPath ++ ":" ++ "/usr/bin") :=
  ⟨_, rfl, c1_android_env_all_linkers_and_path sampleStateA .aarch64LinuxAndroid
    .release (some "27.1.12297006") 24 _ "/usr/bin" rfl rfl⟩

/-- C6: for every target accepted by the resolver the link flags are encoded
into the single CARGO_ENCODED_RUSTFLAGS entry with fields joined by the
U+001F unit separator, and the build argument list never carries the -L or -l
link flags. -/
theorem c6_link_flags_via_encoded_rustflags
    (state : SystemState) (options : BuildOptions) (env : List (String × String))
    (h : getTargetEnvironmentVariables state options = .ok env) :
    (∃ searchPath libraryName, env.lookup "CARGO_ENCODED_RUSTFLAGS" =
      some (String.intercalate unitSeparator ["-L", searchPath, "-l", libraryName])) ∧
    unitSeparator = String.singleton (Char.ofNat 0x1f) ∧
    ∀ configuration : Configuration,
      "-L" ∉ buildArgs options.target configuration ∧
      "-l" ∉ buildArgs options.target configuration := by
  obtain ⟨t, c, n, l⟩ := options
  refine ⟨?_, rfl, ?_⟩
  · cases t with
    | androidTarget a =>
      obtain ⟨nv, ah, tb, wp, -, -, -, -, rfl⟩ :=
        getTargetEnvironmentVariables_androidTarget_ok h
      exact ⟨wp, "weak-node-api", rfl⟩
    | appleTarget a =>
      obtain ⟨wp, -, -, rfl⟩ := getTargetEnvironmentVariables_appleTarget_ok h
      exact ⟨"framework=" ++ wp, "framework=weak-node-api", rfl⟩
  · have hNone : ∀ (tt : TargetName) (cfg : Configuration),
        "-L" ∉ buildArgs tt cfg ∧ "-l" ∉ buildArgs tt cfg := by
      intro tt cfg
      rcases tt with a | a <;> cases a <;> cases cfg <;> exact ⟨by decide, by decide⟩
    exact fun configuration => hNone t configuration

/-- Witness for C6 on a concrete Android resolution. -/
theorem c6_witness :
    ∃ env, getTargetEnvironmentVariables sampleStateA sampleOptions = .ok env ∧
      ∃ searchPath libraryName, env.lookup "CARGO_ENCODED_RUSTFLAGS" =
        some (String.intercalate unitSeparator ["-L", searchPath, "-l", libraryName]) :=
  ⟨_, rfl, (c6_link_flags_via_encoded_rustflags sampleStateA sampleOptions _ rfl).1⟩

/-- C7 counterexample: two calls with equal target, ndkVersion,
androidApiLevel and configuration, made in ambient states that differ only in
the ambient PATH value, return different mappings — the mapping is not fully
determined by the (TargetDescriptor, BuildConfiguration) pair alone. -/
theorem c7_counterexample :
    getTargetEnvironmentVariables sampleStateA sampleOptions ≠
      getTargetEnvironmentVariables sampleStateB sampleOptions := by decide

/-- C7 amended: the mapping is a pure function of the build options together
with the ambient state the source reads, namely the ANDROID_HOME and PATH
environment entries, the host platform and the filesystem (existence
predicate and directory listing); in particular it does not depend on the
working directory or on any other environment variable. -/
theorem c7_amended_deterministic_given_ambient
    (state1 state2 : SystemState) (options : BuildOptions)
    (hHome : state1.env "ANDROID_HOME" = state2.env "ANDROID_HOME")
    (hPath : state1.env "PATH" = state2.env "PATH")
    (hPlatform : state1.platform = state2.platform)
    (hExists : state1.existsSync = state2.existsSync)
    (hReaddir : state1.readdirSync = state2.readdirSync) :
    getTargetEnvironmentVariables state1 options =
      getTargetEnvironmentVariables state2 options := by
  obtain ⟨t, c, n, l⟩ := options
  cases t <;>
    simp only [getTargetEnvironmentVariables, hHome, hPath, hPlatform, hExists, hReaddir]

/-- Witness for C7's amended theorem: a state differing only in working
directory and an unread environment variable yields the same mapping. -/
theorem c7_amended_witness :
    getTargetEnvironmentVariables sampleStateA sampleOptions =
      getTargetEnvironmentVariables sampleStateC sampleOptions :=
  c7_amended_deterministic_given_ambient sampleStateA sampleStateC sampleOptions
    (by decide) (by decide) rfl rfl rfl

/-- C2: for every Apple target getWeakNodeApiFrameworkPath returns the first
slice of the target's ordered candidate list whose directory exists on disk,
every candidate list with more than one entry lists a universal slice first
(so a universal slice is preferred over an architecture-specific one whenever
both exist), and resolution fails with a configuration error when no
candidate slice exists. -/
theorem c2_apple_slice_selection (existsSync : String → Bool) (target : AppleTargetName) :
    (∀ (i : Nat) (hi : i < (APPLE_XCFRAMEWORK_SLICES_PER_TARGET target).length),
      (∀ j (hj : j < (APPLE_XCFRAMEWORK_SLICES_PER_TARGET target).length), j < i →
        existsSync (pathJoin [applePrebuildPath,
          (APPLE_XCFRAMEWORK_SLICES_PER_TARGET target).get ⟨j, hj⟩]) = false) →
      existsSync (pathJoin [applePrebuildPath,
        (APPLE_XCFRAMEWORK_SLICES_PER_TARGET target).get ⟨i, hi⟩]) = true →
      getWeakNodeApiFrameworkPath existsSync target = .ok (pathJoin [applePrebuildPath,
        (APPLE_XCFRAMEWORK_SLICES_PER_TARGET target).get ⟨i, hi⟩])) ∧
    ((∀ slice ∈ APPLE_XCFRAMEWORK_SLICES_PER_TARGET target,
        existsSync (pathJoin [applePrebuildPath, slice]) = false) →
      ∃ message, getWeakNodeApiFrameworkPath existsSync target =
        .error (.configurationError message)) ∧
    (1 < (APPLE_XCFRAMEWORK_SLICES_PER_TARGET target).length →
      ∃ universal rest, APPLE_XCFRAMEWORK_SLICES_PER_TARGET target = universal :: rest ∧
        isUniversalSlice universal = true) := by
  refine ⟨?_, ?_, ?_⟩
  · intro i hi hbefore hexists
    have hfind := @find?_at_first_true
      (fun slice => existsSync (pathJoin [applePrebuildPath, slice]))
      (APPLE_XCFRAMEWORK_SLICES_PER_TARGET target) i hi hbefore hexists
    unfold getWeakNodeApiFrameworkPath
    rw [hfind]
    unfold joinPathAndAssertExistence
    dsimp only
    rw [if_pos hexists]
  · intro hall
    have hnone : (APPLE_XCFRAMEWORK_SLICES_PER_TARGET target).find?
        (fun slice => existsSync (pathJoin [applePrebuildPath, slice])) = none :=
      List.find?_eq_none.mpr (fun x hx => by simp [hall x hx])
    exact ⟨_, by unfold getWeakNodeApiFrameworkPath; rw [hnone]⟩
  · cases target <;> intro hlen <;>
      first
        | exact absurd hlen (by decide)
        | exact ⟨_, _, rfl, by decide⟩

/-- Witness for C2 at the concrete target aarch64-apple-darwin on a
filesystem holding only the single-architecture macos-arm64 slice: the second
candidate is selected since the first does not exist. -/
theorem c2_witness :
    getWeakNodeApiFrameworkPath sampleSliceFs .aarch64AppleDarwin =
      .ok (pathJoin [applePrebuildPath,
        (APPLE_XCFRAMEWORK_SLICES_PER_TARGET .aarch64AppleDarwin).get ⟨1, by decide⟩]) :=
  (c2_apple_slice_selection sampleSliceFs .aarch64AppleDarwin).1 1 (by decide)
    (fun j hj hji => by
      have hj0 : j = 0 := by omega
      subst hj0
      exact (by decide :
        sampleSliceFs (pathJoin [applePrebuildPath, "macos-arm64_x86_64"]) = false))
    (by decide)

/-- Sample ambient state whose target output directory holds exactly one
dynamic library file. -/
def sampleStateD : SystemState :=
  { sampleStateA with readdirSync := fun _ => ["libfoo.so", "README.md"] }

/-- C3: after a successful cargo invocation, build succeeds only if the
filtered listing of the target output directory holds exactly one dynamic
library file (suffix .so or .dylib), returning that file's path, and fails
with the ambiguous-output error whenever the listing holds zero or more than
one such file. -/
theorem c3_build_single_dynamic_library
    (state : SystemState) (target : TargetName) (configuration : Configuration) :
    (∀ outputFile, buildFindOutput state target configuration = .ok outputFile →
      ∃ f, dynamicLibraryFiles state target configuration = [f] ∧
        outputFile = pathJoin [targetOutputPath state target configuration, f]) ∧
    (state.existsSync (targetOutputPath state target configuration) = true →
      (dynamicLibraryFiles state target configuration).length ≠ 1 →
      ∃ message, buildFindOutput state target configuration =
        .error (.ambiguousOutputError message)) := by
  constructor
  · intro outputFile h
    unfold buildFindOutput at h
    split at h
    · exact Except.noConfusion h
    · split at h
      · rename_i x0 h0 f hf
        obtain ⟨rfl, -⟩ := joinPathAndAssertExistence_ok h
        exact ⟨f, hf, rfl⟩
      · exact Except.noConfusion h
  · intro hdir hlen
    unfold targetOutputPath at hdir
    have hjoin : joinPathAndAssertExistence state.existsSync
        [state.cwd, "target", target.triple, configuration.string] =
        .ok (pathJoin [state.cwd, "target", target.triple, configuration.string]) := by
      unfold joinPathAndAssertExistence
      rw [if_pos hdir]
    rcases hfiles : dynamicLibraryFiles state target configuration with - | ⟨f, - | ⟨g, fs⟩⟩
    · exact ⟨_, by unfold buildFindOutput; rw [hjoin, hfiles]⟩
    · rw [hfiles] at hlen
      exact absurd rfl hlen
    · exact ⟨_, by unfold buildFindOutput; rw [hjoin, hfiles]⟩

/-- Witness for C3 at a concrete state whose output directory listing
contains one .so file and one other file. -/
theorem c3_witness :
    ∃ f, dynamicLibraryFiles sampleStateD (.androidTarget .aarch64LinuxAndroid) .release = [f] ∧
      "/work/target/aarch64-linux-android/release/libfoo.so" =
        pathJoin [targetOutputPath sampleStateD (.androidTarget .aarch64LinuxAndroid) .release, f] :=
  (c3_build_single_dynamic_library sampleStateD (.androidTarget .aarch64LinuxAndroid) .release).1
    "/work/target/aarch64-linux-android/release/libfoo.so" rfl

/-- Exit code of the platform loop: 1 when some processed platform had a
failing module, the initial code otherwise. -/
theorem linkAction_foldl_exitCode (prune : Bool)
    (results : PlatformName → List LinkResult) :
    ∀ (platforms : List PlatformName) (acc : LinkActionOutcome),
      (platforms.foldl (linkActionStep prune results) acc).exitCode =
        if platforms.any
            (fun pl => !((results pl).filter (fun r => r.isFailure)).isEmpty) then 1
        else acc.exitCode
  | [], acc => rfl
  | pl :: rest, acc => by
      rw [List.foldl_cons, linkAction_foldl_exitCode prune results rest]
      cases hAny : rest.any
          (fun pl => !((results pl).filter (fun r => r.isFailure)).isEmpty) <;>
        cases hFail : ((results pl).filter (fun r => r.isFailure)).isEmpty <;>
          simp [linkActionStep, hAny, hFail]

/-- Reported failures of the platform loop: every failure of every processed
platform, appended in order. -/
theorem linkAction_foldl_reported (prune : Bool)
    (results : PlatformName → List LinkResult) :
    ∀ (platforms : List PlatformName) (acc : LinkActionOutcome),
      (platforms.foldl (linkActionStep prune results) acc).reportedFailures =
        acc.reportedFailures ++ platforms.flatMap
          (fun pl => ((results pl).filter (fun r => r.isFailure)).map
            (fun f => (pl, f)))
  | [], acc => by simp
  | pl :: rest, acc => by
      rw [List.foldl_cons, linkAction_foldl_reported prune results rest]
      simp [linkActionStep]

/-- Prune calls of the platform loop: one per processed platform, carrying
that platform's results, exactly when pruning is enabled. -/
theorem linkAction_foldl_pruneCalls (prune : Bool)
    (results : PlatformName → List LinkResult) :
    ∀ (platforms : List PlatformName) (acc : LinkActionOutcome),
      (platforms.foldl (linkActionStep prune results) acc).pruneCalls =
        acc.pruneCalls ++
          (if prune then platforms.map (fun pl => (pl, results pl)) else [])
  | [], acc => by cases prune <;> simp
  | pl :: rest, acc => by
      rw [List.foldl_cons, linkAction_foldl_pruneCalls prune results rest]
      cases prune <;> simp [linkActionStep]

/-- C8: the link action exits with code 1 exactly when no platform flag is
given or some module of a selected platform failed, and every failure of
every selected platform is reported, in order, regardless of earlier
failures. -/
theorem c8_link_exit_code_and_failure_aggregation
    (android apple prune : Bool) (results : PlatformName → List LinkResult) :
    ((linkAction android apple prune results).exitCode = 1 ↔
      (selectedPlatforms android apple = [] ∨
        ∃ platform ∈ selectedPlatforms android apple,
          ∃ r ∈ results platform, r.isFailure = true)) ∧
    (selectedPlatforms android apple ≠ [] →
      (linkAction android apple prune results).reportedFailures =
        (selectedPlatforms android apple).flatMap
          (fun platform => ((results platform).filter (fun r => r.isFailure)).map
            (fun f => (platform, f)))) := by
  by_cases hnil : selectedPlatforms android apple = []
  · constructor
    · simp [linkAction, hnil]
    · intro hne
      exact absurd hnil hne
  · have hne' : (selectedPlatforms android apple).isEmpty = false := by
      simpa [List.isEmpty_iff] using hnil
    have hiff : (selectedPlatforms android apple).any
        (fun pl => !((results pl).filter (fun r => r.isFailure)).isEmpty) = true ↔
        ∃ platform ∈ selectedPlatforms android apple,
          ∃ r ∈ results platform, r.isFailure = true := by
      simp [List.any_eq_true, List.isEmpty_iff]
    constructor
    · unfold linkAction
      rw [if_neg (by simp [hne']), linkAction_foldl_exitCode]
      cases hAny : (selectedPlatforms android apple).any
          (fun pl => !((results pl).filter (fun r => r.isFailure)).isEmpty)
      · rw [if_neg (by simp [hAny])]
        simp [hnil, ← hiff, hAny]
      · rw [if_pos (by simp [hAny])]
        exact iff_of_true rfl (Or.inr (hiff.mp hAny))
    · intro _
      unfold linkAction
      rw [if_neg (by simp [hne']), linkAction_foldl_reported]
      rfl

/-- Witness for C8's aggregation conjunct at a concrete two-platform run
with one failing module. -/
theorem c8_witness :
    (linkAction true true true
        (fun pl => if pl = PlatformName.android
          then [LinkResult.failure "/mod-a" "copy failed"]
          else [LinkResult.linked "/mod-b" (some "/out/b") false])).reportedFailures =
      (selectedPlatforms true true).flatMap
        (fun platform =>
          (((fun pl => if pl = PlatformName.android
              then [LinkResult.failure "/mod-a" "copy failed"]
              else [LinkResult.linked "/mod-b" (some "/out/b") false]) platform).filter
            (fun r => r.isFailure)).map (fun f => (platform, f))) :=
  (c8_link_exit_code_and_failure_aggregation true true true _).2 (by decide)

/-- C9: the prune option defaults to true, and an invocation that selects at
least one platform and does not override the option prunes once per selected
platform, passing the pruner that platform's own link results. -/
theorem c9_prune_default_runs_per_platform
    (android apple : Bool) (results : PlatformName → List LinkResult)
    (hne : selectedPlatforms android apple ≠ []) :
    pruneDefault = true ∧
    (linkAction android apple (pruneOptionValue none) results).pruneCalls =
      (selectedPlatforms android apple).map
        (fun platform => (platform, results platform)) := by
  refine ⟨rfl, ?_⟩
  unfold linkAction
  rw [if_neg (by simpa [List.isEmpty_iff] using hne), linkAction_foldl_pruneCalls]
  rfl

/-- Witness for C9 at a concrete single-platform invocation. -/
theorem c9_witness :
    (linkAction true false (pruneOptionValue none)
        (fun _ => [LinkResult.linked "/mod-a" (some "/out/a") true])).pruneCalls =
      (selectedPlatforms true false).map
        (fun platform =>
          (platform, [LinkResult.linked "/mod-a" (some "/out/a") true])) :=
  (c9_prune_default_runs_per_platform true false
    (fun _ => [LinkResult.linked "/mod-a" (some "/out/a") true]) (by decide)).2

end ReactNativeNodeApi
